import Mathlib

/-
Verification of the ResumeCoach backend handler (backend/handler.py).

The Python handler is a stateless request router over a key-value session
store and a hosted language model.  We embed it shallowly:

* DynamoDB tables become partial maps `String → Option _`.
* Timestamps become `Nat` (Unix epoch seconds); `datetime.utcnow()` is a
  context parameter `now`.
* The pickled/base64 chat-history blob becomes an inductive `Blob` whose
  constructors distinguish a well-formed list of LangChain messages, a value
  that deserializes but fails the isinstance check, and a value whose
  decoding raises (`pickle.UnpicklingError`, `TypeError`, `binascii.Error`,
  `AttributeError`).
* The language-model client and every external fault source (store read,
  store write, pickling, scan, LLM invocation) are context parameters, so
  the broad `except` branches of the Python code become explicit cases.
* Python falsiness of an optional string (`not x` for `None` or `""`) is
  `isFalsy`.
-/

namespace ResumeCoach

/-- Role of a chat message: `HumanMessage` or `AIMessage` in LangChain terms. -/
inductive Role where
  | user
  | assistant
deriving DecidableEq, Repr

/-- The opposite role. -/
def Role.other : Role → Role
  | Role.user => Role.assistant
  | Role.assistant => Role.user

/-- A chat message (`HumanMessage`/`AIMessage` with its `content`). -/
structure ChatMsg where
  role : Role
  content : String
deriving DecidableEq, Repr

/-- The stored `chat_history_blob` attribute, as seen by the deserializer in
`get_session`: either it decodes to a list of LangChain messages, or it
decodes to something that fails the isinstance check, or decoding raises. -/
inductive Blob where
  | ok (msgs : List ChatMsg)
  | notMessages
  | decodeError
deriving DecidableEq, Repr

/-- A record of the sessions table as stored in DynamoDB (after a
`save_session`): the raw history list is replaced by `chat_history_blob`,
which is absent when pickling failed.  `ttl` and `lastUpdated` are epoch
seconds. -/
structure StoredRecord where
  sessionId : String
  resume : Option String
  jobDescription : Option String
  initialAnalysis : Option String
  chat_history_blob : Option Blob
  createdAt : Option Nat
  ttl : Nat
  lastUpdated : Nat
deriving DecidableEq, Repr

/-- The in-memory session dict that `analyze_resume` builds, `get_session`
returns and `save_session` consumes.  `sessionId` is optional because a dict
may lack the key (checked by `save_session`). -/
structure SessionData where
  sessionId : Option String
  resume : Option String
  jobDescription : Option String
  initialAnalysis : Option String
  chat_history : List ChatMsg
  createdAt : Option Nat
  ttl : Option Nat
  lastUpdated : Option Nat
deriving DecidableEq, Repr

/-- The sessions table: a partial map from session id to stored record. -/
def Store : Type := String → Option StoredRecord

/-- A record of the default-items table. -/
structure Item where
  id : Option String
  name : Option String
  content : Option String
deriving DecidableEq, Repr

/-- Python falsiness of an optional string: `not x` is true exactly for
`None` and `""`. -/
def isFalsy : Option String → Bool
  | none => true
  | some s => s.isEmpty

/-- A parsed JSON request body object, restricted to the four fields the
handlers read; an absent field is `none`. -/
structure BodyObj where
  resume : Option String
  job_description : Option String
  question : Option String
  sessionId : Option String
deriving DecidableEq, Repr

/-- The raw request body: either `json.loads` succeeds with an object, or it
raises `json.JSONDecodeError`.  A missing body defaults to the empty object
(the Python default of `event.get` for the body). -/
inductive Body where
  | obj (o : BodyObj)
  | malformed
deriving DecidableEq, Repr

/-- An incoming API Gateway event.  `requestContext` is `none` when the
event lacks a `requestContext.http.method`/`path` (the lookup raises
`KeyError`); `pathParamId` is `none` when `pathParameters` or its `id` key is
absent. -/
structure Event where
  requestContext : Option (String × String)
  body : Body
  pathParamId : Option String

/-- A JSON response body: an object with string-or-null fields, or an array
of id/name objects (from the items scan). -/
inductive RespBody where
  | obj (fields : List (String × Option String))
  | arr (items : List (String × String))
deriving DecidableEq, Repr

/-- Add a field to an object body; a non-dict body is left unchanged
(`isinstance(body, dict)` check in `create_response`). -/
def RespBody.withField (b : RespBody) (k : String) (v : String) : RespBody :=
  match b with
  | RespBody.obj fields => RespBody.obj (fields ++ [(k, some v)])
  | RespBody.arr items => RespBody.arr items

/-- The API Gateway response.  The constant CORS headers are elided; the only
varying header, `X-Session-Id`, is kept. -/
structure Response where
  statusCode : Nat
  xSessionId : Option String
  body : RespBody
deriving DecidableEq, Repr

/-- `create_response(status_code, body, session_id)`: adds the session id to
both the body (when the body is a dict) and the `X-Session-Id` header, but
only when `session_id` is truthy. -/
def create_response (status : Nat) (body : RespBody) (sid : Option String) : Response :=
  match sid with
  | some s =>
      if s.isEmpty then
        { statusCode := status, xSessionId := none, body := body }
      else
        { statusCode := status, xSessionId := some s
          body := body.withField "sessionId" s }
  | none => { statusCode := status, xSessionId := none, body := body }

/-- `SESSION_TTL_HOURS = 24`. -/
def SESSION_TTL_HOURS : Nat := 24

/-- The execution context: the conditionally-initialized LLM client, the
oracles standing for the two LLM chains, `uuid.uuid4()`, `utcnow()`, and
success flags for every external call wrapped in a `try` in the Python code. -/
structure Ctx where
  llmAvailable : Bool
  llmOk : Bool
  analyzeOracle : String → String → String
  chatOracle : String → String → String → List ChatMsg → String → String
  newSessionId : String
  now : Nat
  pickleOk : Bool
  writeOk : Bool
  readOk : Bool
  scanOk : Bool
  itemsReadOk : Bool
  itemsStore : String → Option Item
  itemsList : List Item

/-- Decode a stored record into the session dict `get_session` returns: the
blob is deserialized, with the history reset to `[]` when decoding raises or
the result is not a list of LangChain messages, and initialized to `[]` when
the blob attribute is absent. -/
def decodeStored (r : StoredRecord) : SessionData :=
  { sessionId := some r.sessionId
    resume := r.resume
    jobDescription := r.jobDescription
    initialAnalysis := r.initialAnalysis
    chat_history :=
      match r.chat_history_blob with
      | some (Blob.ok msgs) => msgs
      | some Blob.notMessages => []
      | some Blob.decodeError => []
      | none => []
    createdAt := r.createdAt
    ttl := some r.ttl
    lastUpdated := some r.lastUpdated }

/-- `get_session(session_id)`: `None` for a falsy id, a failed `get_item`
(the broad `except`), or an absent record; otherwise the decoded record. -/
def get_session (readOk : Bool) (store : Store) (session_id : String) : Option SessionData :=
  if session_id.isEmpty then none
  else if ¬ readOk then none
  else
    match store session_id with
    | some r => some (decodeStored r)
    | none => none

/-- `save_session(session_data)`: returns the store unchanged when the dict
lacks `sessionId` (logged and dropped), when `put_item` raises (broad
`except`), and otherwise overwrites the whole record with a fresh
`ttl = now + 24h` and `lastUpdated = now`; the history is pickled into
`chat_history_blob`, which is dropped when pickling raises. -/
def save_session (pickleOk writeOk : Bool) (now : Nat) (store : Store)
    (sd : SessionData) : Store :=
  match sd.sessionId with
  | none => store
  | some sid =>
      if writeOk then
        fun k =>
          if k = sid then
            some { sessionId := sid
                   resume := sd.resume
                   jobDescription := sd.jobDescription
                   initialAnalysis := sd.initialAnalysis
                   chat_history_blob :=
                     if pickleOk then some (Blob.ok sd.chat_history) else none
                   createdAt := sd.createdAt
                   ttl := now + SESSION_TTL_HOURS * 3600
                   lastUpdated := now }
          else store k
      else store

/-- `get_all_default_items(event)`: scans the items table (pagination is
modelled by the full list), filters out records missing `id` or `name`, and
returns them; a raised scan becomes a 500. -/
def get_all_default_items (c : Ctx) : Response :=
  if ¬ c.scanOk then
    create_response 500 (RespBody.obj [("error", some "Internal server error while fetching default items list")]) none
  else
    create_response 200
      (RespBody.arr ((c.itemsList.filter
          (fun it => it.id.isSome && it.name.isSome)).map
          (fun it => (it.id.getD "", it.name.getD "")))) none

/-- `get_default_item(event)`: a missing `id` path parameter raises
`KeyError` and becomes 400; a raised `get_item` becomes 500; an absent record
becomes 404; otherwise 200 with the item content, defaulting a missing
`content` attribute to the literal `Error: Content missing`. -/
def get_default_item (c : Ctx) (ev : Event) : Response :=
  match ev.pathParamId with
  | none => create_response 400 (RespBody.obj [("error", some "Missing id in request path")]) none
  | some item_id =>
      if ¬ c.itemsReadOk then
        create_response 500 (RespBody.obj [("error", some "Internal server error while fetching default item")]) none
      else
        match c.itemsStore item_id with
        | some item =>
            create_response 200
              (RespBody.obj [("id", item.id),
                ("content", some (item.content.getD "Error: Content missing"))]) none
        | none =>
            create_response 404 (RespBody.obj [("error", some "Default item content not found")]) none

/-- `analyze_resume(event)`: 503 when the LLM client was never initialized
(checked before the `try`), 400 on a JSON decode error or a falsy `resume` or
`job_description`, 500 when the LLM chain raises; otherwise invokes the
analysis chain, creates a fresh session with empty history, saves it, and
returns 200 with the analysis and the new session id. -/
def analyze_resume (c : Ctx) (store : Store) (ev : Event) : Response × Store :=
  if ¬ c.llmAvailable then
    (create_response 503 (RespBody.obj [("error", some "LLM service is unavailable. Check API Key configuration.")]) none, store)
  else
    match ev.body with
    | Body.malformed =>
        (create_response 400 (RespBody.obj [("error", some "Invalid JSON format in request body")]) none, store)
    | Body.obj o =>
        if isFalsy o.resume || isFalsy o.job_description then
          (create_response 400 (RespBody.obj [("error", some "Both resume and job_description are required.")]) none, store)
        else if ¬ c.llmOk then
          (create_response 500 (RespBody.obj [("error", some "Internal server error during analysis")]) none, store)
        else
          let resume_text := o.resume.getD ""
          let job_description_text := o.job_description.getD ""
          let analysis_result := c.analyzeOracle resume_text job_description_text
          let session_data : SessionData :=
            { sessionId := some c.newSessionId
              resume := some resume_text
              jobDescription := some job_description_text
              initialAnalysis := some analysis_result
              chat_history := []
              createdAt := some c.now
              ttl := none
              lastUpdated := none }
          let store2 := save_session c.pickleOk c.writeOk c.now store session_data
          (create_response 200 (RespBody.obj [("analysis", some analysis_result)])
            (some c.newSessionId), store2)

/-- `chat_follow_up(event)`: 503 when the LLM client was never initialized,
400 on a JSON decode error or falsy `question`/`sessionId`, 404 when the
session is absent (or the read failed), 500 when a core context field of the
session is falsy (corrupted record) or the LLM chain raises; otherwise
invokes the chat chain, appends the question and the answer to the history,
saves the session, and returns 200 with only the answer. -/
def chat_follow_up (c : Ctx) (store : Store) (ev : Event) : Response × Store :=
  if ¬ c.llmAvailable then
    (create_response 503 (RespBody.obj [("error", some "LLM service is unavailable. Check API Key configuration.")]) none, store)
  else
    match ev.body with
    | Body.malformed =>
        (create_response 400 (RespBody.obj [("error", some "Invalid JSON format in request body")]) none, store)
    | Body.obj o =>
        if isFalsy o.question || isFalsy o.sessionId then
          (create_response 400 (RespBody.obj [("error", some "Missing required fields: question, sessionId.")]) none, store)
        else
          match get_session c.readOk store (o.sessionId.getD "") with
          | none =>
              (create_response 404 (RespBody.obj [("error", some "Session not found or expired. Please start a new analysis.")]) none, store)
          | some session_data =>
              if isFalsy session_data.resume || isFalsy session_data.jobDescription
                  || isFalsy session_data.initialAnalysis then
                (create_response 500 (RespBody.obj [("error", some "Session data is corrupted. Please start a new analysis.")]) none, store)
              else if ¬ c.llmOk then
                (create_response 500 (RespBody.obj [("error", some "Internal server error during chat")]) none, store)
              else
                let question := o.question.getD ""
                let answer_text := c.chatOracle (session_data.resume.getD "")
                  (session_data.jobDescription.getD "")
                  (session_data.initialAnalysis.getD "")
                  session_data.chat_history question
                let updated : SessionData :=
                  { session_data with
                      chat_history := session_data.chat_history
                        ++ [{ role := Role.user, content := question },
                            { role := Role.assistant, content := answer_text }] }
                let store2 := save_session c.pickleOk c.writeOk c.now store updated
                (create_response 200 (RespBody.obj [("answer", some answer_text)]) none, store2)

/-- Python `s.startswith(pre)`, computed on the character lists so that it
reduces in the kernel. -/
def strStartsWith (s pre : String) : Bool :=
  pre.data.isPrefixOf s.data

/-- Python `str.split(sep)` for a one-character separator: splits at every
occurrence, keeping empty pieces (so splitting "/a" on the slash gives an
empty piece followed by "a"). -/
def splitOnChar (c : Char) : List Char → List (List Char)
  | [] => [[]]
  | x :: xs =>
      if x = c then [] :: splitOnChar c xs
      else
        match splitOnChar c xs with
        | [] => [[x]]
        | g :: gs => (x :: g) :: gs

/-- Python `path.split` on the slash character. -/
def splitSlash (s : String) : List (List Char) :=
  splitOnChar (Char.ofNat 0x2f) s.data

/-- Truthiness of the routing check on the `id` path parameter
(`event.get` of `pathParameters` then of `id`). -/
def pathIdTruthy (ev : Event) : Bool :=
  match ev.pathParamId with
  | none => false
  | some s => ¬ s.isEmpty

/-- `handler(event, context)`: extracts method and path (a `KeyError` falls
into the catch-all 500), then routes to exactly one of the four handlers,
with 400 for a structurally bad `/items/` path and 404 for any other
combination. -/
def handler (c : Ctx) (store : Store) (ev : Event) : Response × Store :=
  match ev.requestContext with
  | none =>
      (create_response 500 (RespBody.obj [("error", some "Internal Server Error")]) none, store)
  | some (http_method, path) =>
      if path = "/analyze" && http_method = "POST" then
        analyze_resume c store ev
      else if path = "/chat" && http_method = "POST" then
        chat_follow_up c store ev
      else if path = "/items" && http_method = "GET" then
        (get_all_default_items c, store)
      else if strStartsWith path "/items/" && http_method = "GET" then
        if (splitSlash path).length = 3 && pathIdTruthy ev then
          (get_default_item c ev, store)
        else
          (create_response 400 (RespBody.obj [("error", some "Invalid request path for default item.")]) none, store)
      else
        (create_response 404 (RespBody.obj [("error", some "Not Found")]) none, store)

/-- The event a `POST /analyze` request produces. -/
def analyzeEvent (resume jd : String) : Event :=
  { requestContext := some ("POST", "/analyze")
    body := Body.obj { resume := some resume, job_description := some jd
                       question := none, sessionId := none }
    pathParamId := none }

/-- The event a `POST /chat` request produces. -/
def chatEvent (sid question : String) : Event :=
  { requestContext := some ("POST", "/chat")
    body := Body.obj { resume := none, job_description := none
                       question := some question, sessionId := some sid }
    pathParamId := none }

/-- `alternatingFrom r l`: the roles of `l` are `r`, then `r.other`, and so
on in strict alternation. -/
def alternatingFrom : Role → List ChatMsg → Bool
  | _, [] => true
  | r, m :: rest => decide (m.role = r) && alternatingFrom r.other rest

/-- Strict user/assistant alternation starting with a user turn. -/
def alternating (l : List ChatMsg) : Bool :=
  alternatingFrom Role.user l

/-- Run a sequence of `/chat` calls (through the router) against one session
id, threading the store. -/
def iterateChats (c : Ctx) (sid : String) : List String → Store → Store
  | [], store => store
  | q :: rest, store => iterateChats c sid rest (handler c store (chatEvent sid q)).2

/-- The history is a sequence of complete user/assistant turn pairs. -/
def isDialogue : List ChatMsg → Bool
  | [] => true
  | u :: a :: rest =>
      decide (u.role = Role.user) && decide (a.role = Role.assistant) && isDialogue rest
  | [_] => false

/-- The sessions table holds, under `sid`, a consistently keyed record with
full context and the well-formed history blob `h`. -/
def goodAt (store : Store) (sid : String) (h : List ChatMsg) : Prop :=
  ∃ rec, store sid = some rec ∧ rec.sessionId = sid
    ∧ rec.chat_history_blob = some (Blob.ok h)
    ∧ isFalsy rec.resume = false ∧ isFalsy rec.jobDescription = false
    ∧ isFalsy rec.initialAnalysis = false

/-- The record `analyze_resume` saves for a fresh session. -/
def freshRecord (c : Ctx) (resume jd : String) : StoredRecord :=
  { sessionId := c.newSessionId
    resume := some resume
    jobDescription := some jd
    initialAnalysis := some (c.analyzeOracle resume jd)
    chat_history_blob := some (Blob.ok [])
    createdAt := some c.now
    ttl := c.now + SESSION_TTL_HOURS * 3600
    lastUpdated := c.now }

/-- An example execution context with every external call succeeding. -/
def ctxA : Ctx :=
  { llmAvailable := true, llmOk := true
    analyzeOracle := fun _ _ => "analysis-text"
    chatOracle := fun _ _ _ _ _ => "answer-text"
    newSessionId := "sid-1", now := 1000
    pickleOk := true, writeOk := true, readOk := true
    scanOk := true, itemsReadOk := true
    itemsStore := fun _ => none, itemsList := [] }

/-- The example context with the LLM client never initialized. -/
def ctxNoLlm : Ctx := { ctxA with llmAvailable := false }

/-- The example context with every store write failing. -/
def ctxNoWrite : Ctx := { ctxA with writeOk := false }

/-- The empty sessions table. -/
def storeEmpty : Store := fun _ => none

/-- An example stored session record. -/
def recA : StoredRecord :=
  { sessionId := "sid-1", resume := some "r", jobDescription := some "j"
    initialAnalysis := some "a", chat_history_blob := some (Blob.ok [])
    createdAt := some 1, ttl := 90400, lastUpdated := 1 }

/-- `recA` with a history blob whose decoding raises. -/
def recBad : StoredRecord := { recA with chat_history_blob := some Blob.decodeError }

/-- A sessions table holding only `recA`. -/
def storeA : Store := fun k => if k = "sid-1" then some recA else none

/-- A sessions table holding only `recBad`. -/
def storeBad : Store := fun k => if k = "sid-1" then some recBad else none

/-- An example in-memory session dict. -/
def sdA : SessionData :=
  { sessionId := some "sid-1", resume := some "r", jobDescription := some "j"
    initialAnalysis := some "a", chat_history := [], createdAt := some 1
    ttl := none, lastUpdated := none }

/-- An items record lacking the `content` attribute. -/
def itemNoContent : Item := { id := some "item-1", name := some "n", content := none }

/-- The example context whose items table holds only `itemNoContent`. -/
def ctxItems : Ctx :=
  { ctxA with itemsStore := fun k => if k = "item-1" then some itemNoContent else none }

/-- A request body object with all four fields absent. -/
def bodyEmptyObj : BodyObj :=
  { resume := none, job_description := none, question := none, sessionId := none }

/-- A `POST /analyze` event with an empty body object. -/
def evEmptyBody : Event :=
  { requestContext := some ("POST", "/analyze"), body := Body.obj bodyEmptyObj
    pathParamId := none }

/-- A `GET /items/item-1` event. -/
def evItems : Event :=
  { requestContext := some ("GET", "/items/item-1"), body := Body.obj bodyEmptyObj
    pathParamId := some "item-1" }

/-- A request for a route the handler does not serve. -/
def evUnknown : Event :=
  { requestContext := some ("DELETE", "/nope"), body := Body.obj bodyEmptyObj
    pathParamId := none }

theorem isEmpty_false_of_ne (s : String) (h : s ≠ "") : s.isEmpty = false := by
  rcases hb : s.isEmpty with _ | _
  · rfl
  · exact absurd (String.isEmpty_iff s |>.mp hb) h

/-- A path that starts with `/items/` is none of the three fixed routes. -/
theorem strStartsWith_items_ne (p : String) (h : strStartsWith p "/items/" = true) :
    p ≠ "/analyze" ∧ p ≠ "/chat" ∧ p ≠ "/items" := by
  refine ⟨?_, ?_, ?_⟩ <;> rintro rfl <;> exact absurd h (by decide)

theorem isDialogue_append_pair (q a : String) :
    ∀ l, isDialogue l = true →
      isDialogue (l ++ [{ role := Role.user, content := q },
        { role := Role.assistant, content := a }]) = true
  | [], _ => by simp [isDialogue]
  | [_], h => by simp [isDialogue] at h
  | u :: v :: rest, h => by
      simp only [isDialogue, Bool.and_eq_true, decide_eq_true_eq] at h
      simp only [List.cons_append, isDialogue, Bool.and_eq_true, decide_eq_true_eq]
      exact ⟨⟨h.1.1, h.1.2⟩, isDialogue_append_pair q a rest h.2⟩

theorem isDialogue_alternatingFrom :
    ∀ l, isDialogue l = true → alternatingFrom Role.user l = true
  | [], _ => rfl
  | [_], h => by simp [isDialogue] at h
  | u :: v :: rest, h => by
      simp only [isDialogue, Bool.and_eq_true, decide_eq_true_eq] at h
      simp only [alternatingFrom, Role.other, Bool.and_eq_true, decide_eq_true_eq]
      exact ⟨h.1.1, h.1.2, isDialogue_alternatingFrom rest h.2⟩

/-- A successful `POST /analyze` returns the analysis with the fresh session
id and stores exactly `freshRecord` under that id. -/
theorem analyze_result (c : Ctx) (store : Store) (resume jd : String)
    (hr : resume ≠ "") (hjd : jd ≠ "")
    (hllm : c.llmAvailable = true) (hok : c.llmOk = true)
    (hpk : c.pickleOk = true) (hw : c.writeOk = true) :
    handler c store (analyzeEvent resume jd) =
      (create_response 200 (RespBody.obj [("analysis", some (c.analyzeOracle resume jd))])
          (some c.newSessionId),
       fun k => if k = c.newSessionId then some (freshRecord c resume jd) else store k) := by
  have hre := isEmpty_false_of_ne resume hr
  have hje := isEmpty_false_of_ne jd hjd
  simp [handler, analyzeEvent, analyze_resume, hllm, hok, isFalsy, hre, hje,
    save_session, hpk, hw, freshRecord]

/-- A successful `POST /chat` appends exactly a user/assistant pair to the
stored history and preserves the session context fields. -/
theorem chat_step (c : Ctx) (store : Store) (sid q : String) (rec : StoredRecord)
    (h0 : List ChatMsg)
    (hllm : c.llmAvailable = true) (hok : c.llmOk = true)
    (hpk : c.pickleOk = true) (hw : c.writeOk = true) (hrd : c.readOk = true)
    (hq : q ≠ "") (hsid : sid ≠ "")
    (hrec : store sid = some rec) (hkey : rec.sessionId = sid)
    (hblob : rec.chat_history_blob = some (Blob.ok h0))
    (h1 : isFalsy rec.resume = false) (h2 : isFalsy rec.jobDescription = false)
    (h3 : isFalsy rec.initialAnalysis = false) :
    ∃ ans rec2,
      (handler c store (chatEvent sid q)).1.statusCode = 200
      ∧ (handler c store (chatEvent sid q)).1.body = RespBody.obj [("answer", some ans)]
      ∧ (handler c store (chatEvent sid q)).2 sid = some rec2
      ∧ rec2.sessionId = sid
      ∧ rec2.chat_history_blob = some (Blob.ok (h0 ++
          [{ role := Role.user, content := q }, { role := Role.assistant, content := ans }]))
      ∧ rec2.resume = rec.resume
      ∧ rec2.jobDescription = rec.jobDescription
      ∧ rec2.initialAnalysis = rec.initialAnalysis
      ∧ (∀ k, k ≠ sid → (handler c store (chatEvent sid q)).2 k = store k) := by
  have hqe := isEmpty_false_of_ne q hq
  have hse := isEmpty_false_of_ne sid hsid
  simp only [isFalsy] at h1 h2 h3
  refine ⟨c.chatOracle (rec.resume.getD "") (rec.jobDescription.getD "")
      (rec.initialAnalysis.getD "") h0 q,
    { sessionId := sid
      resume := rec.resume
      jobDescription := rec.jobDescription
      initialAnalysis := rec.initialAnalysis
      chat_history_blob := some (Blob.ok (h0 ++
        [{ role := Role.user, content := q },
         { role := Role.assistant,
           content := c.chatOracle (rec.resume.getD "") (rec.jobDescription.getD "")
             (rec.initialAnalysis.getD "") h0 q }]))
      createdAt := rec.createdAt
      ttl := c.now + SESSION_TTL_HOURS * 3600
      lastUpdated := c.now }, ?_⟩
  refine ⟨?_, ?_, ?_, rfl, rfl, rfl, rfl, rfl, ?_⟩ <;>
    simp [handler, chatEvent, chat_follow_up, hllm, hok, isFalsy, hqe, hse,
      get_session, hrd, hrec, decodeStored, hblob, h1, h2, h3,
      save_session, hpk, hw, hkey, create_response]
  intro k hk
  simp [hk]

/-- Iterating successful chats keeps the session good, grows the history by
two entries per call, and keeps it a dialogue. -/
theorem iterateChats_dialogue (c : Ctx) (sid : String)
    (hllm : c.llmAvailable = true) (hok : c.llmOk = true)
    (hpk : c.pickleOk = true) (hw : c.writeOk = true) (hrd : c.readOk = true)
    (hsid : sid ≠ "") :
    ∀ (qs : List String) (store : Store) (h0 : List ChatMsg),
      (∀ q ∈ qs, q ≠ "") → goodAt store sid h0 →
      ∃ hfin, goodAt (iterateChats c sid qs store) sid hfin
        ∧ hfin.length = h0.length + 2 * qs.length
        ∧ (isDialogue h0 = true → isDialogue hfin = true)
  | [], store, h0, _, hgood => ⟨h0, by simpa [iterateChats] using hgood, by simp, fun h => h⟩
  | q :: rest, store, h0, hqs, hgood => by
      obtain ⟨rec, hrec, hkey, hblob, h1, h2, h3⟩ := hgood
      obtain ⟨ans, rec2, _, _, hst2, hkey2, hblob2, hres2, hjd2, han2, _⟩ :=
        chat_step c store sid q rec h0 hllm hok hpk hw hrd (hqs q (by simp)) hsid
          hrec hkey hblob h1 h2 h3
      have hgood2 : goodAt (handler c store (chatEvent sid q)).2 sid
          (h0 ++ [{ role := Role.user, content := q },
                  { role := Role.assistant, content := ans }]) :=
        ⟨rec2, hst2, hkey2, hblob2, by rw [hres2]; exact h1,
          by rw [hjd2]; exact h2, by rw [han2]; exact h3⟩
      obtain ⟨hfin, hg, hlen, hdia⟩ := iterateChats_dialogue c sid hllm hok hpk hw hrd hsid
        rest (handler c store (chatEvent sid q)).2 _
        (fun x hx => hqs x (by simp [hx])) hgood2
      refine ⟨hfin, by simpa [iterateChats] using hg, ?_, ?_⟩
      · rw [hlen]
        simp [List.length_append]
        ring
      · intro hd0
        exact hdia (isDialogue_append_pair q ans h0 hd0)

/-- Claim C1: in a healthy environment (LLM client initialized and returning
a non-empty analysis, store reads, writes and pickling succeeding, a
non-empty generated session id), every `POST /analyze` with non-empty
`resume` and `job_description` returns 200 carrying the fresh session id,
the saved session holds the resume, job description, initial analysis and an
empty history and `get_session` retrieves it, and an immediately following
`POST /chat` with that session id and any non-empty question returns 200. -/
theorem analyze_then_chat_round_trip (c : Ctx) (store : Store) (resume jd q : String)
    (hr : resume ≠ "") (hjd : jd ≠ "") (hq : q ≠ "")
    (hllm : c.llmAvailable = true) (hok : c.llmOk = true)
    (hpk : c.pickleOk = true) (hw : c.writeOk = true) (hrd : c.readOk = true)
    (hnew : c.newSessionId ≠ "") (hana : c.analyzeOracle resume jd ≠ "") :
    (handler c store (analyzeEvent resume jd)).1.statusCode = 200
    ∧ (handler c store (analyzeEvent resume jd)).1.xSessionId = some c.newSessionId
    ∧ get_session c.readOk (handler c store (analyzeEvent resume jd)).2 c.newSessionId
        = some { sessionId := some c.newSessionId
                 resume := some resume
                 jobDescription := some jd
                 initialAnalysis := some (c.analyzeOracle resume jd)
                 chat_history := []
                 createdAt := some c.now
                 ttl := some (c.now + SESSION_TTL_HOURS * 3600)
                 lastUpdated := some c.now }
    ∧ (handler c (handler c store (analyzeEvent resume jd)).2
        (chatEvent c.newSessionId q)).1.statusCode = 200 := by
  have hne := isEmpty_false_of_ne c.newSessionId hnew
  have hae := isEmpty_false_of_ne (c.analyzeOracle resume jd) hana
  have hre := isEmpty_false_of_ne resume hr
  have hje := isEmpty_false_of_ne jd hjd
  have ha := analyze_result c store resume jd hr hjd hllm hok hpk hw
  rw [ha]
  have hstep := chat_step c
    (fun k => if k = c.newSessionId then some (freshRecord c resume jd) else store k)
    c.newSessionId q (freshRecord c resume jd) [] hllm hok hpk hw hrd hq hnew
    (by simp) rfl rfl (by simp [freshRecord, isFalsy, hre])
    (by simp [freshRecord, isFalsy, hje]) (by simp [freshRecord, isFalsy, hae])
  refine ⟨?_, ?_, ?_, ?_⟩
  · simp [create_response, hne]
  · simp [create_response, hne]
  · simp [get_session, hne, hrd, decodeStored, freshRecord]
  · obtain ⟨ans, rec2, h200, _⟩ := hstep
    exact h200

theorem analyze_then_chat_round_trip_witness :
    (handler ctxA storeEmpty (analyzeEvent "r" "j")).1.statusCode = 200
    ∧ (handler ctxA storeEmpty (analyzeEvent "r" "j")).1.xSessionId = some "sid-1"
    ∧ (handler ctxA (handler ctxA storeEmpty (analyzeEvent "r" "j")).2
        (chatEvent "sid-1" "q")).1.statusCode = 200 := by
  have h := analyze_then_chat_round_trip ctxA storeEmpty "r" "j" "q" (by decide) (by decide)
    (by decide) rfl rfl rfl rfl rfl (by decide) (by decide)
  exact ⟨h.1, h.2.1, h.2.2.2⟩

/-- Claim C2: the handler maps every event to exactly one outcome: a missing
request context falls into the catch-all 500; `POST /analyze`, `POST /chat`
and `GET /items` dispatch to their handlers; a structurally good `GET` on an
`/items/` sub-path dispatches to `get_default_item`; a malformed `/items/`
sub-path (wrong segment count or falsy `id` path parameter) yields 400; any
other method/path combination yields 404.  The embedding is a total
function, so the handler never propagates an exception. -/
theorem handler_routes_exhaustively (c : Ctx) (store : Store) (ev : Event) :
    (ev.requestContext = none →
      handler c store ev =
        (create_response 500 (RespBody.obj [("error", some "Internal Server Error")]) none, store))
    ∧ ∀ m p, ev.requestContext = some (m, p) →
        ((p = "/analyze" ∧ m = "POST") → handler c store ev = analyze_resume c store ev)
        ∧ ((p = "/chat" ∧ m = "POST") → handler c store ev = chat_follow_up c store ev)
        ∧ ((p = "/items" ∧ m = "GET") → handler c store ev = (get_all_default_items c, store))
        ∧ ((strStartsWith p "/items/" = true ∧ m = "GET"
              ∧ ((splitSlash p).length = 3 ∧ pathIdTruthy ev = true)) →
            handler c store ev = (get_default_item c ev, store))
        ∧ ((strStartsWith p "/items/" = true ∧ m = "GET"
              ∧ ¬((splitSlash p).length = 3 ∧ pathIdTruthy ev = true)) →
            handler c store ev =
              (create_response 400 (RespBody.obj
                [("error", some "Invalid request path for default item.")]) none, store))
        ∧ ((¬(p = "/analyze" ∧ m = "POST") ∧ ¬(p = "/chat" ∧ m = "POST")
              ∧ ¬(p = "/items" ∧ m = "GET") ∧ ¬(strStartsWith p "/items/" = true ∧ m = "GET")) →
            handler c store ev =
              (create_response 404 (RespBody.obj [("error", some "Not Found")]) none, store)) := by
  constructor
  · intro h
    simp [handler, h]
  · intro m p hrc
    refine ⟨?_, ?_, ?_, ?_, ?_, ?_⟩
    · rintro ⟨rfl, rfl⟩
      simp [handler, hrc]
    · rintro ⟨rfl, rfl⟩
      simp [handler, hrc]
    · rintro ⟨rfl, rfl⟩
      simp [handler, hrc]
    · rintro ⟨hs, rfl, hlen, htr⟩
      obtain ⟨n1, n2, n3⟩ := strStartsWith_items_ne p hs
      simp [handler, hrc, hs, hlen, htr, n1, n2, n3]
    · rintro ⟨hs, rfl, hbad⟩
      obtain ⟨n1, n2, n3⟩ := strStartsWith_items_ne p hs
      have hfalse : ((splitSlash p).length = 3 && pathIdTruthy ev) = false := by
        rw [Bool.eq_false_iff]
        intro hc
        rw [Bool.and_eq_true, decide_eq_true_eq] at hc
        exact hbad ⟨hc.1, hc.2⟩
      simp [handler, hrc, hs, hfalse, n1, n2, n3]
    · rintro ⟨n1, n2, n3, n4⟩
      have e1 : (decide (p = "/analyze") && decide (m = "POST")) = false := by
        rw [Bool.eq_false_iff]
        intro hc
        rw [Bool.and_eq_true, decide_eq_true_eq, decide_eq_true_eq] at hc
        exact n1 hc
      have e2 : (decide (p = "/chat") && decide (m = "POST")) = false := by
        rw [Bool.eq_false_iff]
        intro hc
        rw [Bool.and_eq_true, decide_eq_true_eq, decide_eq_true_eq] at hc
        exact n2 hc
      have e3 : (decide (p = "/items") && decide (m = "GET")) = false := by
        rw [Bool.eq_false_iff]
        intro hc
        rw [Bool.and_eq_true, decide_eq_true_eq, decide_eq_true_eq] at hc
        exact n3 hc
      have e4 : (strStartsWith p "/items/" && decide (m = "GET")) = false := by
        rw [Bool.eq_false_iff]
        intro hc
        rw [Bool.and_eq_true, decide_eq_true_eq] at hc
        exact n4 hc
      simp [handler, hrc, e1, e2, e3, e4]

theorem handler_routes_exhaustively_witness :
    handler ctxA storeEmpty evUnknown =
      (create_response 404 (RespBody.obj [("error", some "Not Found")]) none, storeEmpty) :=
  ((handler_routes_exhaustively ctxA storeEmpty evUnknown).2 "DELETE" "/nope"
    rfl).2.2.2.2.2 (by decide)

/-- Claim C3: with the LLM client initialized, every `POST /analyze` whose
body object lacks `resume`, lacks `job_description`, or has either equal to
the empty string, returns status 400. -/
theorem analyze_missing_fields_400 (c : Ctx) (store : Store) (ev : Event) (o : BodyObj)
    (hllm : c.llmAvailable = true) (hb : ev.body = Body.obj o)
    (hbad : isFalsy o.resume = true ∨ isFalsy o.job_description = true) :
    (analyze_resume c store ev).1.statusCode = 400 := by
  rcases hbad with h | h <;>
    simp [analyze_resume, hllm, hb, h, create_response]

theorem analyze_missing_fields_400_witness :
    (analyze_resume ctxA storeEmpty evEmptyBody).1.statusCode = 400 :=
  analyze_missing_fields_400 ctxA storeEmpty evEmptyBody bodyEmptyObj rfl rfl (Or.inl rfl)

/-- Claim C4: when the LLM client was never initialized, `analyze_resume`
and `chat_follow_up` return exactly the constant 503 response — the result
does not depend on the request body or the store, so no body parsing,
session-store access or model call happens — and the store is unchanged. -/
theorem llm_uninitialized_503 (c : Ctx) (store : Store) (ev : Event)
    (h : c.llmAvailable = false) :
    analyze_resume c store ev =
      (create_response 503 (RespBody.obj [("error", some "LLM service is unavailable. Check API Key configuration.")]) none, store)
    ∧ chat_follow_up c store ev =
      (create_response 503 (RespBody.obj [("error", some "LLM service is unavailable. Check API Key configuration.")]) none, store) := by
  constructor <;> simp [analyze_resume, chat_follow_up, h]

theorem llm_uninitialized_503_witness :
    (analyze_resume ctxNoLlm storeEmpty evEmptyBody).1.statusCode = 503
    ∧ (chat_follow_up ctxNoLlm storeEmpty evEmptyBody).2 = storeEmpty := by
  have h := llm_uninitialized_503 ctxNoLlm storeEmpty evEmptyBody rfl
  exact ⟨by rw [h.1]; rfl, by rw [h.2]⟩

/-- Claim C5: each successful `POST /chat` appends exactly two entries to
the stored history — a user message with the question, then an assistant
message with the answer — and after `N` successful chat calls against a
session created by `POST /analyze` the stored history has length `2N` and
is in strict alternating user/assistant order, the previous history kept as
a prefix at every step. -/
theorem chat_appends_user_assistant_pairs (c : Ctx) (store : Store)
    (resume jd : String) (qs : List String)
    (hr : resume ≠ "") (hjd : jd ≠ "")
    (hllm : c.llmAvailable = true) (hok : c.llmOk = true)
    (hpk : c.pickleOk = true) (hw : c.writeOk = true) (hrd : c.readOk = true)
    (hnew : c.newSessionId ≠ "") (hana : c.analyzeOracle resume jd ≠ "")
    (hqs : ∀ q ∈ qs, q ≠ "") :
    (∀ (st : Store) (rec : StoredRecord) (h0 : List ChatMsg) (q : String),
        q ≠ "" → st c.newSessionId = some rec → rec.sessionId = c.newSessionId →
        rec.chat_history_blob = some (Blob.ok h0) →
        isFalsy rec.resume = false → isFalsy rec.jobDescription = false →
        isFalsy rec.initialAnalysis = false →
        ∃ ans rec2,
          (handler c st (chatEvent c.newSessionId q)).1.statusCode = 200
          ∧ (handler c st (chatEvent c.newSessionId q)).2 c.newSessionId = some rec2
          ∧ rec2.chat_history_blob = some (Blob.ok (h0 ++
              [{ role := Role.user, content := q },
               { role := Role.assistant, content := ans }])))
    ∧ ∃ hist rec,
        iterateChats c c.newSessionId qs (handler c store (analyzeEvent resume jd)).2
            c.newSessionId = some rec
        ∧ rec.chat_history_blob = some (Blob.ok hist)
        ∧ hist.length = 2 * qs.length
        ∧ alternating hist = true := by
  constructor
  · intro st rec h0 q hq hst hkey hblob h1 h2 h3
    obtain ⟨ans, rec2, ha, _, hb, _, hc, _⟩ :=
      chat_step c st c.newSessionId q rec h0 hllm hok hpk hw hrd hq hnew hst hkey hblob h1 h2 h3
    exact ⟨ans, rec2, ha, hb, hc⟩
  · have ha := analyze_result c store resume jd hr hjd hllm hok hpk hw
    rw [ha]
    have hgood : goodAt
        (fun k => if k = c.newSessionId then some (freshRecord c resume jd) else store k)
        c.newSessionId [] :=
      ⟨freshRecord c resume jd, by simp, rfl, rfl,
        by simp [freshRecord, isFalsy, isEmpty_false_of_ne resume hr],
        by simp [freshRecord, isFalsy, isEmpty_false_of_ne jd hjd],
        by simp [freshRecord, isFalsy, isEmpty_false_of_ne _ hana]⟩
    obtain ⟨hfin, ⟨rec, hrec, _, hblob, _⟩, hlen, hdia⟩ :=
      iterateChats_dialogue c c.newSessionId hllm hok hpk hw hrd hnew qs _ [] hqs hgood
    refine ⟨hfin, rec, hrec, hblob, by simpa using hlen, ?_⟩
    exact isDialogue_alternatingFrom hfin (hdia rfl)

theorem chat_appends_user_assistant_pairs_witness :
    ∃ hist rec,
      iterateChats ctxA "sid-1" ["q1"] (handler ctxA storeEmpty (analyzeEvent "r" "j")).2
          "sid-1" = some rec
      ∧ rec.chat_history_blob = some (Blob.ok hist)
      ∧ hist.length = 2 ∧ alternating hist = true := by
  have h := chat_appends_user_assistant_pairs ctxA storeEmpty "r" "j" ["q1"]
    (by decide) (by decide) rfl rfl rfl rfl rfl (by decide) (by decide)
    (by intro x hx; rw [List.mem_singleton] at hx; subst hx; decide)
  exact h.2

/-- Claim C6: when the stored record's history blob fails to deserialize,
`get_session` returns the session with `chat_history` reset to the empty
list, while `resume`, `jobDescription` and `initialAnalysis` (and the other
attributes) are returned unchanged. -/
theorem get_session_resets_history (readOk : Bool) (store : Store)
    (sid : String) (rec : StoredRecord)
    (hsid : sid.isEmpty = false) (hrd : readOk = true)
    (hrec : store sid = some rec)
    (hblob : rec.chat_history_blob = some Blob.decodeError) :
    get_session readOk store sid =
      some { sessionId := some rec.sessionId, resume := rec.resume
             jobDescription := rec.jobDescription
             initialAnalysis := rec.initialAnalysis
             chat_history := [], createdAt := rec.createdAt
             ttl := some rec.ttl, lastUpdated := some rec.lastUpdated } := by
  simp [get_session, hsid, hrd, hrec, decodeStored, hblob]

theorem get_session_resets_history_witness :
    get_session true storeBad "sid-1" =
      some { sessionId := some "sid-1", resume := some "r", jobDescription := some "j"
             initialAnalysis := some "a", chat_history := [], createdAt := some 1
             ttl := some 90400, lastUpdated := some 1 } := by
  have h := get_session_resets_history true storeBad "sid-1" recBad (by decide) rfl
    (by decide) rfl
  exact h

/-- Claim C7: a `save_session` call on session data carrying a session id
(with pickling and the store write succeeding) writes the full record under
that id — every field determined by the session data alone, so the result is
independent of the previous store contents — with `ttl` recomputed as
`now + 24h` regardless of any previous `ttl`, the in-memory history
serialized into the blob field, and no other key touched. -/
theorem save_session_fresh_ttl (now : Nat) (store store2 : Store)
    (sd : SessionData) (sid : String) (hsid : sd.sessionId = some sid) :
    save_session true true now store sd sid =
      some { sessionId := sid
             resume := sd.resume
             jobDescription := sd.jobDescription
             initialAnalysis := sd.initialAnalysis
             chat_history_blob := some (Blob.ok sd.chat_history)
             createdAt := sd.createdAt
             ttl := now + SESSION_TTL_HOURS * 3600
             lastUpdated := now }
    ∧ save_session true true now store sd sid = save_session true true now store2 sd sid
    ∧ ∀ k, k ≠ sid → save_session true true now store sd k = store k := by
  refine ⟨by simp [save_session, hsid], by simp [save_session, hsid], fun k hk => ?_⟩
  simp [save_session, hsid, hk]

theorem save_session_fresh_ttl_witness :
    save_session true true 1000 storeEmpty sdA "sid-1" =
      some { sessionId := "sid-1", resume := some "r", jobDescription := some "j"
             initialAnalysis := some "a", chat_history_blob := some (Blob.ok [])
             createdAt := some 1, ttl := 1000 + SESSION_TTL_HOURS * 3600
             lastUpdated := 1000 } :=
  (save_session_fresh_ttl 1000 storeEmpty storeEmpty sdA "sid-1" rfl).1

/-- Claim C8: the model-availability check precedes request validation in
both `analyze_resume` and `chat_follow_up`: for a request with a malformed
body or missing/empty fields, when the LLM client is uninitialized the
response is 503, not 400. -/
theorem unavailable_precedes_validation (c : Ctx) (store : Store) (ev : Event)
    (hllm : c.llmAvailable = false)
    (_hbad : ev.body = Body.malformed
      ∨ ∃ o, ev.body = Body.obj o
          ∧ (isFalsy o.resume = true ∨ isFalsy o.job_description = true
             ∨ isFalsy o.question = true ∨ isFalsy o.sessionId = true)) :
    (analyze_resume c store ev).1.statusCode = 503
    ∧ (chat_follow_up c store ev).1.statusCode = 503
    ∧ (analyze_resume c store ev).1.statusCode ≠ 400
    ∧ (chat_follow_up c store ev).1.statusCode ≠ 400 := by
  refine ⟨?_, ?_, ?_, ?_⟩ <;>
    simp [analyze_resume, chat_follow_up, hllm, create_response]

theorem unavailable_precedes_validation_witness :
    (analyze_resume ctxNoLlm storeEmpty evEmptyBody).1.statusCode = 503
    ∧ (chat_follow_up ctxNoLlm storeEmpty evEmptyBody).1.statusCode = 503 := by
  have h := unavailable_precedes_validation ctxNoLlm storeEmpty evEmptyBody rfl
    (Or.inr ⟨bodyEmptyObj, rfl, Or.inl rfl⟩)
  exact ⟨h.1, h.2.1⟩

/-- Claim C9: `save_session` never signals failure: on session data missing
`sessionId` it leaves the store unchanged, and a failed store write leaves
the store unchanged; consequently, even with every store write failing,
`analyze_resume` still returns 200 with the new session id and
`chat_follow_up` still returns 200 with the answer, though nothing was
persisted. -/
theorem save_failures_silent (c : Ctx) (store : Store) (resume jd sid q : String)
    (rec : StoredRecord)
    (hllm : c.llmAvailable = true) (hok : c.llmOk = true) (hw : c.writeOk = false)
    (hr : resume ≠ "") (hjd : jd ≠ "") (hq : q ≠ "") (hsid : sid ≠ "")
    (hnew : c.newSessionId ≠ "") (hrd : c.readOk = true)
    (hrec : store sid = some rec)
    (h1 : isFalsy rec.resume = false) (h2 : isFalsy rec.jobDescription = false)
    (h3 : isFalsy rec.initialAnalysis = false) :
    (∀ (pk wk : Bool) (now : Nat) (st : Store) (sd : SessionData),
        sd.sessionId = none → save_session pk wk now st sd = st)
    ∧ (∀ (pk : Bool) (now : Nat) (st : Store) (sd : SessionData),
        save_session pk false now st sd = st)
    ∧ (analyze_resume c store (analyzeEvent resume jd)).1.statusCode = 200
    ∧ (analyze_resume c store (analyzeEvent resume jd)).1.xSessionId = some c.newSessionId
    ∧ (analyze_resume c store (analyzeEvent resume jd)).2 = store
    ∧ (chat_follow_up c store (chatEvent sid q)).1.statusCode = 200
    ∧ (∃ ans, (chat_follow_up c store (chatEvent sid q)).1.body
        = RespBody.obj [("answer", some ans)])
    ∧ (chat_follow_up c store (chatEvent sid q)).2 = store := by
  have hre := isEmpty_false_of_ne resume hr
  have hje := isEmpty_false_of_ne jd hjd
  have hqe := isEmpty_false_of_ne q hq
  have hse := isEmpty_false_of_ne sid hsid
  have hne := isEmpty_false_of_ne c.newSessionId hnew
  simp only [isFalsy] at h1 h2 h3
  refine ⟨?_, ?_, ?_, ?_, ?_, ?_, ?_, ?_⟩
  · intro pk wk now st sd h
    simp [save_session, h]
  · intro pk now st sd
    cases hs : sd.sessionId <;> simp [save_session, hs]
  · simp [analyze_resume, analyzeEvent, hllm, hok, isFalsy, hre, hje, save_session, hw,
      create_response, hne]
  · simp [analyze_resume, analyzeEvent, hllm, hok, isFalsy, hre, hje, save_session, hw,
      create_response, hne]
  · simp [analyze_resume, analyzeEvent, hllm, hok, isFalsy, hre, hje, save_session, hw,
      create_response, hne]
  · simp [chat_follow_up, chatEvent, hllm, hok, isFalsy, hqe, hse, get_session, hrd, hrec,
      decodeStored, h1, h2, h3, save_session, hw, create_response]
  · simp [chat_follow_up, chatEvent, hllm, hok, isFalsy, hqe, hse, get_session, hrd, hrec,
      decodeStored, h1, h2, h3, save_session, hw, create_response]
  · simp [chat_follow_up, chatEvent, hllm, hok, isFalsy, hqe, hse, get_session, hrd, hrec,
      decodeStored, h1, h2, h3, save_session, hw, create_response]

theorem save_failures_silent_witness :
    (analyze_resume ctxNoWrite storeA (analyzeEvent "r" "j")).1.statusCode = 200
    ∧ (analyze_resume ctxNoWrite storeA (analyzeEvent "r" "j")).2 = storeA
    ∧ (chat_follow_up ctxNoWrite storeA (chatEvent "sid-1" "q")).1.statusCode = 200
    ∧ (chat_follow_up ctxNoWrite storeA (chatEvent "sid-1" "q")).2 = storeA := by
  have h := save_failures_silent ctxNoWrite storeA "r" "j" "sid-1" "q" recA rfl rfl rfl
    (by decide) (by decide) (by decide) (by decide) (by decide) rfl (by decide) rfl rfl rfl
  exact ⟨h.2.2.1, h.2.2.2.2.1, h.2.2.2.2.2.1, h.2.2.2.2.2.2.2⟩

/-- Claim C10: a `GET` on an `/items/` sub-path whose record exists but has
no `content` attribute returns status 200 with `content` equal to the
literal string `Error: Content missing` — not a 404 or 500. -/
theorem default_item_missing_content (c : Ctx) (iid : String) (item : Item) (ev : Event)
    (hev : ev.pathParamId = some iid)
    (hrd : c.itemsReadOk = true)
    (hit : c.itemsStore iid = some item)
    (hc : item.content = none) :
    get_default_item c ev =
      create_response 200 (RespBody.obj [("id", item.id),
        ("content", some "Error: Content missing")]) none := by
  simp [get_default_item, hev, hrd, hit, hc]

theorem default_item_missing_content_witness :
    get_default_item ctxItems evItems =
      create_response 200 (RespBody.obj [("id", some "item-1"),
        ("content", some "Error: Content missing")]) none := by
  have h := default_item_missing_content ctxItems "item-1" itemNoContent evItems rfl rfl
    (by decide) rfl
  simpa using h

end ResumeCoach
